import Mathlib

/-!
Verification of the AmazonQA-Suite repository against its specification.

Shallow embedding of the pure/decidable parts of the repository:
* `src/utils/enhanced_reporting.py` (EnhancedReporter)
* `src/utils/test_helpers.py` (selector auto-detection, price extraction)
* `src/utils/browser_config.py` (single-tab enforcement, headless validation,
  chrome option construction)
* `src/tests/test_amazon_complete.py` (price-accuracy validators, combined
  workflow phase-4 computation)
* `src/run_tests.py` (CLI argument handling and exit codes)

Machine reals (Python floats) are modelled as exact rationals `Rat`;
filesystem existence is modelled as a boolean predicate on paths;
the browser driver's window-handle set is modelled as an explicit list.
-/

namespace AmazonQA

/-! ## Enhanced reporting engine (`src/utils/enhanced_reporting.py`) -/

/-- One test result record, as appended by `EnhancedReporter.add_test_result`.
`status` is the raw status string ("passed" / "failed" / "skipped" in
practice); `duration` is in seconds. -/
structure TestResult where
  test_name : String
  status : String
  duration : Rat
  timestamp : String
  error_message : Option String
  screenshot_path : Option String
deriving Repr, DecidableEq

/-- One screenshot record, as appended by `EnhancedReporter.add_screenshot`. -/
structure ScreenshotRecord where
  path : String
  description : String
  timestamp : String
deriving Repr, DecidableEq

/-- One performance metric value, as stored by `add_performance_metric`. -/
structure PerfMetric where
  value : Rat
  unit : String
  timestamp : String
deriving Repr, DecidableEq

/-- In-memory state of an `EnhancedReporter` instance: ordered test results,
performance metrics keyed by name, ordered screenshots and optional
session-start/end wall-clock times (modelled as seconds). -/
structure Reporter where
  test_results : List TestResult
  performance_metrics : List (String × PerfMetric)
  screenshots : List ScreenshotRecord
  start_time : Option Rat
  end_time : Option Rat
deriving Repr, DecidableEq

/-- A fresh reporter, as built by `EnhancedReporter.__init__`. -/
def Reporter.init : Reporter :=
  { test_results := [], performance_metrics := [], screenshots := [],
    start_time := none, end_time := none }

/-- `add_test_result`: appends a record; a missing duration defaults to 0
(Python `duration or 0`). -/
def Reporter.add_test_result (r : Reporter) (test_name status : String)
    (duration : Option Rat) (ts : String)
    (error_message screenshot_path : Option String) : Reporter :=
  { r with test_results := r.test_results ++
      [{ test_name := test_name, status := status,
         duration := duration.getD 0, timestamp := ts,
         error_message := error_message, screenshot_path := screenshot_path }] }

/-- `add_screenshot`: appends a record only when the file currently exists on
disk; `fs` models the filesystem as a path-existence predicate. -/
def Reporter.add_screenshot (fs : String → Bool) (r : Reporter)
    (path description ts : String) : Reporter :=
  if fs path then
    { r with screenshots := r.screenshots ++
        [{ path := path, description := description, timestamp := ts }] }
  else r

/-- Summary block of `generate_json_report`: counts plus success rate. -/
structure JsonSummary where
  total_tests : Nat
  passed : Nat
  failed : Nat
  skipped : Nat
  success_rate : Rat
deriving Repr, DecidableEq

/-- The `summary` object computed inside `generate_json_report`
(lines 667-673 of `enhanced_reporting.py`). -/
def Reporter.json_summary (r : Reporter) : JsonSummary :=
  { total_tests := r.test_results.length,
    passed := r.test_results.countP (fun t => t.status == "passed"),
    failed := r.test_results.countP (fun t => t.status == "failed"),
    skipped := r.test_results.countP (fun t => t.status == "skipped"),
    success_rate :=
      if r.test_results.isEmpty then 0
      else (r.test_results.countP (fun t => t.status == "passed") : Rat)
             / (r.test_results.length : Rat) * 100 }

/-- The `session.duration` value computed inside `generate_json_report`:
`(end - start).total_seconds()` when both timestamps are set, else 0. -/
def Reporter.json_session_duration (r : Reporter) : Rat :=
  match r.start_time, r.end_time with
  | some s, some e => e - s
  | _, _ => 0

/-- The summary numbers computed at the top of
`generate_enhanced_html_report` (lines 65-76 of `enhanced_reporting.py`). -/
structure HtmlSummary where
  total_tests : Nat
  passed_tests : Nat
  failed_tests : Nat
  skipped_tests : Nat
  success_rate : Rat
  total_duration : Rat
  session_duration : Rat
deriving Repr, DecidableEq

/-- Summary-statistics computation of `generate_enhanced_html_report`. -/
def Reporter.html_summary (r : Reporter) : HtmlSummary :=
  { total_tests := r.test_results.length,
    passed_tests := r.test_results.countP (fun t => t.status == "passed"),
    failed_tests := r.test_results.countP (fun t => t.status == "failed"),
    skipped_tests := r.test_results.countP (fun t => t.status == "skipped"),
    success_rate :=
      if r.test_results.length > 0 then
        (r.test_results.countP (fun t => t.status == "passed") : Rat)
          / (r.test_results.length : Rat) * 100
      else 0,
    total_duration := (r.test_results.map (·.duration)).sum,
    session_duration :=
      match r.start_time, r.end_time with
      | some s, some e => e - s
      | _, _ => 0 }

/-- Screenshot gallery of the HTML report: one card per stored screenshot
whose file still exists at render time (`if os.path.exists(screenshot["path"])`,
line 568 of `enhanced_reporting.py`). `fs` is the filesystem at render time. -/
def Reporter.html_gallery (fs : String → Bool) (r : Reporter) :
    List ScreenshotRecord :=
  r.screenshots.filter (fun s => fs s.path)

/-- Concrete session used by the spec's round-trip example: four results with
statuses passed, passed, failed, skipped. -/
def exampleSession : Reporter :=
  ((((Reporter.init.add_test_result "t1" "passed" (some 1) "ts1" none none
      ).add_test_result "t2" "passed" (some 2) "ts2" none none
      ).add_test_result "t3" "failed" (some 3) "ts3" (some "boom") none
      ).add_test_result "t4" "skipped" none "ts4" none none)

/-! ## String primitives

Python string operations modelled over the character list of a `String`
(ASCII case folding and whitespace, which covers every string these
functions are applied to in the repository). -/

/-- `s.startswith(p)`. -/
def strStartsWith (s p : String) : Bool :=
  p.toList.isPrefixOf s.toList

/-- `c in s` for a single character `c`. -/
def strContainsChar (s : String) (c : Char) : Bool :=
  s.toList.contains c

/-- `s.lower()`. -/
def lowerString (s : String) : String :=
  String.mk (s.toList.map Char.toLower)

/-- `s.strip()`: removes leading and trailing whitespace. -/
def pyStrip (s : String) : String :=
  String.mk
    (((s.toList.dropWhile Char.isWhitespace).reverse.dropWhile
        Char.isWhitespace).reverse)

/-- `s.replace(',', '')`: removes every comma. -/
def removeCommas (s : String) : String :=
  String.mk (s.toList.filter (fun c => c ≠ ','))

/-! ## DOM helpers (`src/utils/test_helpers.py`) -/

/-- Selenium locator strategies used by `auto_detect_selector_type`. -/
inductive SelBy where
  | id
  | className
  | xpath
  | cssSelector
  | name
deriving Repr, DecidableEq

/-- `auto_detect_selector_type` (`test_helpers.py` lines 105-118): dispatch on
the raw selector string's shape, in source order: leading `#`, leading `.`,
leading `//`, both `[` and `]` present, `name=` prefix, otherwise CSS. -/
def auto_detect_selector_type (s : String) : SelBy × String :=
  if strStartsWith s "#" then (SelBy.id, s.drop 1)
  else if strStartsWith s "." then (SelBy.className, s.drop 1)
  else if strStartsWith s "//" then (SelBy.xpath, s)
  else if strContainsChar s '[' && strContainsChar s ']' then (SelBy.cssSelector, s)
  else if strStartsWith s "name=" then (SelBy.name, s.drop 5)
  else (SelBy.cssSelector, s)

/-- One DOM element matched by a price selector, reduced to the three text
sources the extractor probes: `element.text`, the `textContent` attribute and
the `innerHTML` attribute (`none` models a `None` attribute value). -/
structure PriceElement where
  text : String
  textContent : Option String
  innerHTML : Option String
deriving Repr, DecidableEq

/-- A successful price extraction: `{price, original_text, selector_used}`
(`test_helpers.py` lines 214-218). -/
structure PriceData where
  price : Nat
  original_text : String
  selector_used : String
deriving Repr, DecidableEq

/-- The ordered price-selector strategies of `extract_price_from_element`
(`test_helpers.py` lines 164-182). -/
def price_selectors : List String :=
  [ ".a-price-whole",
    ".a-price .a-offscreen",
    ".a-price-range .a-offscreen",
    ".a-price-symbol + .a-price-whole",
    "[data-a-price] .a-offscreen",
    ".a-price-display .a-offscreen",
    ".a-price .a-price-whole",
    ".a-price-range .a-price-whole",
    "*[class*='price'] *[class*='whole']",
    "*[class*='price'] *[class*='amount']",
    "*[data-testid*='price']",
    "*[aria-label*='price']" ]

/-- Fueled worker for `stripTags`: removes every leftmost non-overlapping
match of the pattern `<[^>]+>` (a `<`, at least one non-`>` character, a `>`),
as `re.sub(r'<[^>]+>', '', html)` does. Each step consumes at least one input
character, so fuel equal to the input length is exact. -/
def stripTagsFuel : Nat → List Char → List Char
  | 0, cs => cs
  | _ + 1, [] => []
  | n + 1, c :: rest =>
    if c = '<' then
      match rest.span (fun d => d ≠ '>') with
      | (before, _ :: after) =>
        if before.isEmpty then c :: stripTagsFuel n rest
        else stripTagsFuel n after
      | (_, []) => c :: stripTagsFuel n rest
    else c :: stripTagsFuel n rest

/-- Tag removal used by the `innerHTML` fallback of the price extractor. -/
def stripTags (cs : List Char) : List Char :=
  stripTagsFuel cs.length cs

/-- First maximal run of decimal digits in a character list, or `none` when no
digit occurs: the value of `re.search(r'[\d,]+', s)` on a comma-free input. -/
def firstDigitRun (cs : List Char) : Option (List Char) :=
  let rest := cs.dropWhile (fun c => !c.isDigit)
  if rest.isEmpty then none else some (rest.takeWhile Char.isDigit)

/-- Decimal value of a digit run, as Python `int` parses it. -/
def digitsToNat (cs : List Char) : Nat :=
  cs.foldl (fun acc c => acc * 10 + (c.toNat - 48)) 0

/-- The three text-retrieval fallbacks of `extract_price_from_element`
(lines 189-204): non-blank `element.text` (stripped), else a non-empty
`textContent` attribute (stripped), else a non-empty `innerHTML` attribute
with tags removed (stripped). `none` means `price_text` stayed `None`. -/
def priceTextOf (pe : PriceElement) : Option String :=
  if pyStrip pe.text ≠ "" then some (pyStrip pe.text)
  else if pe.textContent.getD "" ≠ "" then some (pyStrip (pe.textContent.getD ""))
  else if pe.innerHTML.getD "" ≠ "" then
    some (pyStrip (String.mk (stripTags (pe.innerHTML.getD "").toList)))
  else none

/-- Numeric part of the extractor (lines 206-218): given a non-empty
`price_text`, strip commas, take the first digit run, parse it, and accept the
value only inside the 50..10,000,000 heuristic range. -/
def priceFromText (sel pt : String) : Option PriceData :=
  if pt ≠ "" then
    match firstDigitRun (removeCommas pt).toList with
    | some ds =>
      if 50 ≤ digitsToNat ds ∧ digitsToNat ds ≤ 10000000 then
        some { price := digitsToNat ds, original_text := pt, selector_used := sel }
      else none
    | none => none
  else none

/-- `extract_price_from_element`: the product element is modelled by its
`find_elements` behaviour, a map from CSS selector to matched elements. The
selectors are tried in order, each element's text retrieved by the three
fallbacks, and the first in-range value is returned with its text and
selector; out-of-range or unparsable candidates are skipped. -/
def extract_price_from_element (findElements : String → List PriceElement) :
    Option PriceData :=
  price_selectors.findSome? fun sel =>
    (findElements sel).findSome? fun pe =>
      match priceTextOf pe with
      | some pt => priceFromText sel pt
      | none => none

/-! ## Browser configuration (`src/utils/browser_config.py`) -/

/-- The argument list added by `get_visible_chrome_options`
(`browser_config.py` lines 14-55), in source order. The experimental options
and preferences are not command-line arguments and are not part of
`chrome_options.arguments`. -/
def visible_chrome_arguments : List String :=
  [ "--start-maximized",
    "--force-device-scale-factor=1",
    "--disable-background-mode",
    "--disable-background-timer-throttling",
    "--disable-backgrounding-occluded-windows",
    "--disable-renderer-backgrounding",
    "--no-sandbox",
    "--disable-dev-shm-usage",
    "--disable-extensions",
    "--disable-blink-features=AutomationControlled",
    "--disable-notifications",
    "--disable-popup-blocking",
    "--disable-default-apps" ]

/-- The reduced argument list of the `minimal_options` retry path in
`create_visible_chrome_driver` (lines 178-181). -/
def minimal_chrome_arguments : List String :=
  [ "--start-maximized",
    "--disable-blink-features=AutomationControlled" ]

/-- Substring containment on character lists (Python's `in` on strings). -/
def containsSub (needle : List Char) : List Char → Bool
  | [] => needle.isEmpty
  | c :: t => needle.isPrefixOf (c :: t) || containsSub needle t

/-- `'--headless' in arg.lower()`: case-insensitive headless-flag scan of one
argument. -/
def headlessFlagIn (arg : String) : Bool :=
  containsSub "--headless".toList (lowerString arg).toList

/-- `validate_no_headless_mode` (lines 331-340): raises a `ValueError` when
any argument contains a case-insensitive headless flag, else returns `True`.
The raise is modelled as `Except.error`. -/
def validate_no_headless_mode (args : List String) : Except String Bool :=
  if args.any headlessFlagIn then
    Except.error "HEADLESS MODE DETECTED! All tests must run with visible browser window"
  else Except.ok true

/-- The driver's window state: open window handles in creation order and the
currently focused handle. -/
structure DriverWindows where
  handles : List String
  current : String
deriving Repr, DecidableEq

/-- Window events that can change the open-handle set during a run: a
navigation keeps the handle set, a popup-triggered spawn appends a new
handle. -/
inductive WinOp where
  | navigate (url : String)
  | spawnWindow (h : String)
deriving Repr, DecidableEq

/-- Effect of one window event on the driver's window state. -/
def applyWinOp (st : DriverWindows) (op : WinOp) : DriverWindows :=
  match op with
  | .navigate _ => st
  | .spawnWindow h => { st with handles := st.handles ++ [h] }

/-- Window state after a sequence of navigations and popup spawns, starting
from a single original window. -/
def runWinOps (original : String) (ops : List WinOp) : DriverWindows :=
  ops.foldl applyWinOp { handles := [original], current := original }

/-- `enforce_single_tab_mode` (lines 279-328): after re-injecting the
same-tab script, if more than one handle is open it closes every handle but
the first and switches back to it; the whole body is wrapped in a broad
`except` that logs and returns `False`, modelled by the `driverError` flag.
The function is total: it returns a success boolean and never raises. -/
def enforce_single_tab_mode (driverError : Bool) (st : DriverWindows) :
    Bool × DriverWindows :=
  if driverError then (false, st)
  else
    match st.handles with
    | [] => (true, st)
    | [_] => (true, st)
    | h :: _ :: _ => (true, { handles := [h], current := h })

/-! ## Price-accuracy validators (`src/tests/test_amazon_complete.py`) -/

/-- A product record as consumed by the price validators. A `none` field
models an absent dictionary key; `product.get("price")` is truthy exactly for
a present non-zero price, and `product.get("title", "Unknown")` yields
`"Unknown"` for an absent title. -/
structure Product where
  title : Option String
  price : Option Nat
  rating : Option Rat
deriving Repr, DecidableEq

/-- Python truthiness of `product.get("price")`: present and non-zero. -/
def hasPriceData (p : Product) : Bool :=
  p.price.getD 0 != 0

/-- One entry of the validators' `invalid_prices` list: title truncated to 50
characters, the offending price and the expected maximum. -/
structure InvalidPriceEntry where
  title : String
  price : Nat
  expected_max : Rat
deriving Repr, DecidableEq

/-- Result dictionary of the two price validators. Fields that a code path
leaves out of the returned dictionary are `none`: the empty-input branch of
the original validator returns only `accuracy` and `details`, while the
non-empty branch returns the counts and `passed` but no `details`. -/
structure PriceValidationResult where
  accuracy : Rat
  details : Option String
  valid_count : Option Nat
  invalid_count : Option Nat
  total_products : Option Nat
  products_with_prices : Option Nat
  invalid_products : Option (List InvalidPriceEntry)
  passed : Option Bool
deriving Repr, DecidableEq

/-- Whether a priced product is within the allowed ceiling. -/
def priceWithin (max_allowed : Rat) (p : Product) : Bool :=
  decide ((p.price.getD 0 : Rat) ≤ max_allowed)

/-- `max_allowed = expected_max_price + tolerance_amount` where
`tolerance_amount = expected_max_price * (tolerance_percent / 100)`
(lines 877-878 and 1124-1125). -/
def maxAllowed (expected_max_price tolerance_percent : Rat) : Rat :=
  expected_max_price + expected_max_price * (tolerance_percent / 100)

/-- The `valid_prices` local of both validators: prices of priced products at
or below the allowed ceiling, in input order. -/
def validPricesOf (ps : List Product) (e t : Rat) : List Nat :=
  ((ps.filter hasPriceData).filter (priceWithin (maxAllowed e t))).map
    (fun p => p.price.getD 0)

/-- The `invalid_prices` local of both validators: one entry per priced
product above the ceiling, title defaulted to "Unknown" and truncated to 50
characters. -/
def invalidEntriesOf (ps : List Product) (e t : Rat) : List InvalidPriceEntry :=
  ((ps.filter hasPriceData).filter (fun p => !priceWithin (maxAllowed e t) p)).map
    (fun p => { title := (p.title.getD "Unknown").take 50,
                price := p.price.getD 0,
                expected_max := e })

/-- The `accuracy` local of both validators:
`valid/(valid+invalid)*100`, 0 when no product carries a price. -/
def accuracyOf (ps : List Product) (e t : Rat) : Rat :=
  if (validPricesOf ps e t).length + (invalidEntriesOf ps e t).length > 0 then
    ((validPricesOf ps e t).length : Rat)
      / (((validPricesOf ps e t).length + (invalidEntriesOf ps e t).length : Nat) : Rat)
      * 100
  else 0

/-- `validate_price_accuracy` (`test_amazon_complete.py` lines 870-902), the
original strict validator: on an empty list returns only
`{accuracy: 0, details}` (no `passed` key); otherwise partitions priced
products against the ceiling and passes at `accuracy >= 70`. -/
def validate_price_accuracy (products_data : List Product)
    (expected_max_price tolerance_percent : Rat) : PriceValidationResult :=
  if products_data.isEmpty then
    { accuracy := 0, details := some "No products to validate",
      valid_count := none, invalid_count := none, total_products := none,
      products_with_prices := none, invalid_products := none, passed := none }
  else
    { accuracy := accuracyOf products_data expected_max_price tolerance_percent,
      details := none,
      valid_count := some (validPricesOf products_data expected_max_price tolerance_percent).length,
      invalid_count := some (invalidEntriesOf products_data expected_max_price tolerance_percent).length,
      total_products := some products_data.length,
      products_with_prices := some
        ((validPricesOf products_data expected_max_price tolerance_percent).length
          + (invalidEntriesOf products_data expected_max_price tolerance_percent).length),
      invalid_products := some
        ((invalidEntriesOf products_data expected_max_price tolerance_percent).take 3),
      passed := some
        (decide (accuracyOf products_data expected_max_price tolerance_percent ≥ 70)) }

/-- `validate_price_accuracy_enhanced` (lines 1117-1152), the lenient
validator (30% default tolerance): on an empty list returns
`{accuracy: 0, details, passed: False}`; otherwise the same partition with
`passed = accuracy >= 40 or valid_count >= 2`. -/
def validate_price_accuracy_enhanced (products_data : List Product)
    (expected_max_price tolerance_percent : Rat) : PriceValidationResult :=
  if products_data.isEmpty then
    { accuracy := 0, details := some "No products to validate",
      valid_count := none, invalid_count := none, total_products := none,
      products_with_prices := none, invalid_products := none,
      passed := some false }
  else
    { accuracy := accuracyOf products_data expected_max_price tolerance_percent,
      details := none,
      valid_count := some (validPricesOf products_data expected_max_price tolerance_percent).length,
      invalid_count := some (invalidEntriesOf products_data expected_max_price tolerance_percent).length,
      total_products := some products_data.length,
      products_with_prices := some
        ((validPricesOf products_data expected_max_price tolerance_percent).length
          + (invalidEntriesOf products_data expected_max_price tolerance_percent).length),
      invalid_products := some
        ((invalidEntriesOf products_data expected_max_price tolerance_percent).take 3),
      passed := some
        (decide (accuracyOf products_data expected_max_price tolerance_percent ≥ 40)
          || decide ((validPricesOf products_data expected_max_price tolerance_percent).length ≥ 2)) }

/-- A product list made of bare priced entries, used by the spec's examples. -/
def pricedList (prices : List Nat) : List Product :=
  prices.map (fun v => { title := none, price := some v, rating := none })

/-! ## Combined workflow, Phase 4 (`test_amazon_complete.py` lines 3140-3159) -/

/-- `sum([basic_success, advanced_success, interaction_success,
price_data_success])`: Python sums booleans as 0/1. -/
def total_phases_passed (b a i p : Bool) : Nat :=
  b.toNat + a.toNat + i.toNat + p.toNat

/-- The Phase-4 assertion `total_phases_passed >= 3` on the four
phase-success flags. -/
def workflow_phase4_assert (b a i p : Bool) : Bool :=
  decide (3 ≤ total_phases_passed b a i p)

/-- The whole Phase-4 computation from the in-memory quantities: the four
flags (lines 3144-3147) and the `>= 3` assertion (line 3159). -/
def workflow_phase4 (basic_products_count : Nat) (products_data : List Product)
    (interaction_score : Nat) : Bool :=
  let basic_success := decide (1 ≤ basic_products_count)
  let advanced_success := decide (1 ≤ products_data.length)
  let interaction_success := decide (1 ≤ interaction_score)
  let products_with_prices := products_data.countP hasPriceData
  let price_data_success :=
    decide (1 ≤ products_with_prices) || decide (3 ≤ products_data.length)
  workflow_phase4_assert basic_success advanced_success interaction_success
    price_data_success

/-! ## Test runner CLI (`src/run_tests.py`) -/

/-- Pytest target of `run_basic_tests`. -/
def basicTarget : String := "tests/test_amazon_complete.py::TestAmazonBasic"

/-- Pytest target of `run_advanced_tests`. -/
def advancedTarget : String := "tests/test_amazon_complete.py::TestAmazonAdvanced"

/-- Pytest target of `run_both_tests`. -/
def bothTarget : String := "tests/test_amazon_complete.py"

/-- Outcome of a `main()` invocation: the process exit status and the pytest
targets dispatched as subprocesses (each such dispatch is what launches a
browser and runs tests). -/
structure CliOutcome where
  exit_code : Int
  dispatched : List String
deriving Repr, DecidableEq

/-- `main` of `run_tests.py` (lines 302-361): banner, then the environment
check (exit 1 on failure, before any dispatch); with a first argument,
lowercase it and dispatch the matching suite, propagating the subprocess's
return code, or exit 1 on an unrecognized flag without dispatching; with no
arguments, enter the interactive menu loop, whose dispatches depend on
operator input (abstracted as `interactive_dispatched`) and whose every exit
path (`choice == "0"` or a keyboard interrupt) falls through to `return 0`.
`pytest_exit` models the return code of a pytest subprocess per target. -/
def run_tests_main (env_ok : Bool) (args : List String)
    (pytest_exit : String → Int) (interactive_dispatched : List String) :
    CliOutcome :=
  if !env_ok then { exit_code := 1, dispatched := [] }
  else
    match args with
    | [] => { exit_code := 0, dispatched := interactive_dispatched }
    | a :: _ =>
      let arg := lowerString a
      if arg = "--basic" then
        { exit_code := pytest_exit basicTarget, dispatched := [basicTarget] }
      else if arg = "--advanced" then
        { exit_code := pytest_exit advancedTarget, dispatched := [advancedTarget] }
      else if arg = "--both" || arg = "--all" then
        { exit_code := pytest_exit bothTarget, dispatched := [bothTarget] }
      else { exit_code := 1, dispatched := [] }

/-- A product element whose `.a-price-whole` child has the given visible text
and nothing else matches: the smallest element shape exercising the price
extractor on one text. -/
def singlePriceElement (t : String) : String → List PriceElement :=
  fun sel =>
    if sel = ".a-price-whole" then
      [{ text := t, textContent := none, innerHTML := none }]
    else []

/-! ## Helper lemmas -/

theorem exists_of_findSome_eq_some {α β : Type} {f : α → Option β} {b : β} :
    ∀ {l : List α}, l.findSome? f = some b → ∃ a ∈ l, f a = some b := by
  intro l
  induction l with
  | nil => intro h; simp [List.findSome?] at h
  | cons a t ih =>
    intro h
    rw [List.findSome?_cons] at h
    cases hfa : f a with
    | some v =>
      rw [hfa] at h
      exact ⟨a, by simp, by rw [hfa]; exact h⟩
    | none =>
      rw [hfa] at h
      obtain ⟨x, hx, hfx⟩ := ih h
      exact ⟨x, by simp [hx], hfx⟩

theorem priceFromText_some {sel pt : String} {r : PriceData}
    (h : priceFromText sel pt = some r) :
    50 ≤ r.price ∧ r.price ≤ 10000000 ∧ r.original_text = pt ∧
      r.selector_used = sel := by
  unfold priceFromText at h
  split at h
  · split at h
    · split at h
      next hrange =>
        cases h
        exact ⟨hrange.1, hrange.2, rfl, rfl⟩
      next => exact absurd h (by simp)
    next => exact absurd h (by simp)
  · exact absurd h (by simp)

theorem winops_foldl_shape :
    ∀ (ops : List WinOp) (st : DriverWindows),
      (ops.foldl applyWinOp st).current = st.current ∧
      ∃ extra, (ops.foldl applyWinOp st).handles = st.handles ++ extra := by
  intro ops
  induction ops with
  | nil => intro st; exact ⟨rfl, [], by simp⟩
  | cons op t ih =>
    intro st
    cases op with
    | navigate url =>
      simpa [List.foldl_cons, applyWinOp] using ih st
    | spawnWindow h =>
      obtain ⟨hc, extra, he⟩ := ih { st with handles := st.handles ++ [h] }
      refine ⟨hc, [h] ++ extra, ?_⟩
      simpa [List.foldl_cons, applyWinOp, List.append_assoc] using he

theorem length_filter_add_length_filter_not {α : Type} (p : α → Bool)
    (l : List α) :
    (l.filter p).length + (l.filter (fun a => !p a)).length = l.length := by
  induction l with
  | nil => rfl
  | cons a t ih =>
    cases h : p a <;> simp [List.filter_cons, h] <;> omega

/-! ## Claim theorems -/

/-- C1: for every reporter state, the JSON report's summary counts equal the
length and per-status counts of the result list, its success rate is
passed/total×100 (0 with no results), and the HTML generator's summary
numbers (total, passed, failed, skipped, success rate, total duration,
session duration) agree with the JSON generator's on the same state; for the
session with statuses [passed, passed, failed, skipped] the summary is
total_tests=4, passed=2, failed=1, skipped=1, success_rate=50. -/
theorem report_summary_round_trip :
    (∀ st : Reporter,
      st.html_summary.total_tests = st.json_summary.total_tests ∧
      st.html_summary.passed_tests = st.json_summary.passed ∧
      st.html_summary.failed_tests = st.json_summary.failed ∧
      st.html_summary.skipped_tests = st.json_summary.skipped ∧
      st.html_summary.success_rate = st.json_summary.success_rate ∧
      st.html_summary.session_duration = st.json_session_duration ∧
      st.html_summary.total_duration =
        (st.test_results.map (fun t => t.duration)).sum ∧
      st.json_summary.total_tests = st.test_results.length ∧
      st.json_summary.passed =
        st.test_results.countP (fun t => t.status == "passed") ∧
      st.json_summary.failed =
        st.test_results.countP (fun t => t.status == "failed") ∧
      st.json_summary.skipped =
        st.test_results.countP (fun t => t.status == "skipped") ∧
      st.json_summary.success_rate =
        (if st.test_results.length = 0 then 0
         else (st.test_results.countP (fun t => t.status == "passed") : Rat)
                / (st.test_results.length : Rat) * 100)) ∧
    exampleSession.json_summary =
      { total_tests := 4, passed := 2, failed := 1, skipped := 1,
        success_rate := 50 } ∧
    exampleSession.html_summary.total_tests = 4 ∧
    exampleSession.html_summary.passed_tests = 2 ∧
    exampleSession.html_summary.failed_tests = 1 ∧
    exampleSession.html_summary.skipped_tests = 1 ∧
    exampleSession.html_summary.success_rate = 50 := by
  refine ⟨?_, ?_, ?_, ?_, ?_, ?_, ?_⟩
  · intro st
    obtain ⟨trs, pm, ss, s, e⟩ := st
    refine ⟨rfl, rfl, rfl, rfl, ?_, rfl, rfl, rfl, rfl, rfl, rfl, ?_⟩
    · cases trs with
      | nil => simp [Reporter.html_summary, Reporter.json_summary]
      | cons a t => simp [Reporter.html_summary, Reporter.json_summary]
    · cases trs with
      | nil => simp [Reporter.json_summary]
      | cons a t => simp [Reporter.json_summary]
  · simp +decide [exampleSession, Reporter.init, Reporter.add_test_result,
      Reporter.json_summary, List.countP_cons, List.countP_nil,
      JsonSummary.mk.injEq]
    norm_num
  · simp +decide [exampleSession, Reporter.init, Reporter.add_test_result,
      Reporter.html_summary, List.countP_cons, List.countP_nil]
  · simp +decide [exampleSession, Reporter.init, Reporter.add_test_result,
      Reporter.html_summary, List.countP_cons, List.countP_nil]
  · simp +decide [exampleSession, Reporter.init, Reporter.add_test_result,
      Reporter.html_summary, List.countP_cons, List.countP_nil]
  · simp +decide [exampleSession, Reporter.init, Reporter.add_test_result,
      Reporter.html_summary, List.countP_cons, List.countP_nil]
  · simp +decide [exampleSession, Reporter.init, Reporter.add_test_result,
      Reporter.html_summary, List.countP_cons, List.countP_nil]
    norm_num

/-- C2: the single-element price extractor only ever returns a price inside
[50, 10,000,000], together with the original matched text and the selector
that matched; a text parsing to 10 or to 50,000,001 yields no price record. -/
theorem price_extraction_bounds :
    (∀ (fe : String → List PriceElement) (r : PriceData),
      extract_price_from_element fe = some r →
      50 ≤ r.price ∧ r.price ≤ 10000000 ∧
      r.selector_used ∈ price_selectors ∧
      ∃ pe ∈ fe r.selector_used,
        priceTextOf pe = some r.original_text ∧
        priceFromText r.selector_used r.original_text = some r) ∧
    extract_price_from_element (singlePriceElement "10") = none ∧
    extract_price_from_element (singlePriceElement "50,000,001") = none := by
  refine ⟨?_, by decide, by decide⟩
  intro fe r h
  obtain ⟨sel, hselmem, hsel⟩ := exists_of_findSome_eq_some h
  obtain ⟨pe, hpemem, hpe⟩ := exists_of_findSome_eq_some hsel
  cases hpt : priceTextOf pe with
  | none => rw [hpt] at hpe; exact absurd hpe (by simp)
  | some pt =>
    rw [hpt] at hpe
    obtain ⟨h50, hub, hot, hsu⟩ := priceFromText_some hpe
    refine ⟨h50, hub, ?_, pe, ?_, ?_, ?_⟩
    · rw [hsu]; exact hselmem
    · rw [hsu]; exact hpemem
    · rw [hot]; exact hpt
    · rw [hot, hsu]; exact hpe

/-- C2 witness: a concrete element with visible text "1,999" under the
`.a-price-whole` selector satisfies every conclusion of
`price_extraction_bounds` with the extracted record (1999, "1,999",
".a-price-whole"). -/
theorem price_extraction_bounds_witness :
    50 ≤ (PriceData.mk 1999 "1,999" ".a-price-whole").price ∧
    (PriceData.mk 1999 "1,999" ".a-price-whole").price ≤ 10000000 ∧
    (PriceData.mk 1999 "1,999" ".a-price-whole").selector_used ∈ price_selectors ∧
    ∃ pe ∈ singlePriceElement "1,999"
        (PriceData.mk 1999 "1,999" ".a-price-whole").selector_used,
      priceTextOf pe =
        some (PriceData.mk 1999 "1,999" ".a-price-whole").original_text ∧
      priceFromText (PriceData.mk 1999 "1,999" ".a-price-whole").selector_used
          (PriceData.mk 1999 "1,999" ".a-price-whole").original_text =
        some (PriceData.mk 1999 "1,999" ".a-price-whole") :=
  price_extraction_bounds.1 (singlePriceElement "1,999")
    (PriceData.mk 1999 "1,999" ".a-price-whole") (by decide)

/-- C3: for every non-empty product list the enhanced validator counts valid
prices against the ceiling expected×(1+30%), counts the rest invalid,
computes accuracy = valid/(valid+invalid)×100 (0 when nothing is priced) and
passes exactly when accuracy ≥ 40 or at least 2 valid prices exist; prices
[400, 450, 600] against expected 500 give accuracy 100 and pass, prices
[400, 1000] give accuracy 50 and pass. -/
theorem enhanced_price_accuracy_spec :
    (∀ (ps : List Product) (e : Rat), ps ≠ [] →
      (validate_price_accuracy_enhanced ps e 30).valid_count =
        some ((ps.filter hasPriceData).countP
          (fun p => decide ((p.price.getD 0 : Rat) ≤ e * (1 + 30 / 100)))) ∧
      (validate_price_accuracy_enhanced ps e 30).invalid_count =
        some ((ps.filter hasPriceData).countP
          (fun p => !decide ((p.price.getD 0 : Rat) ≤ e * (1 + 30 / 100)))) ∧
      (validate_price_accuracy_enhanced ps e 30).accuracy =
        (if (ps.filter hasPriceData).length = 0 then 0
         else ((ps.filter hasPriceData).countP
             (fun p => decide ((p.price.getD 0 : Rat) ≤ e * (1 + 30 / 100))) : Rat)
           / ((ps.filter hasPriceData).length : Rat) * 100) ∧
      (validate_price_accuracy_enhanced ps e 30).passed =
        some (decide ((validate_price_accuracy_enhanced ps e 30).accuracy ≥ 40) ||
          decide (2 ≤ (ps.filter hasPriceData).countP
            (fun p => decide ((p.price.getD 0 : Rat) ≤ e * (1 + 30 / 100)))))) ∧
    (validate_price_accuracy_enhanced (pricedList [400, 450, 600]) 500 30).accuracy = 100 ∧
    (validate_price_accuracy_enhanced (pricedList [400, 450, 600]) 500 30).passed = some true ∧
    (validate_price_accuracy_enhanced (pricedList [400, 1000]) 500 30).accuracy = 50 ∧
    (validate_price_accuracy_enhanced (pricedList [400, 1000]) 500 30).passed = some true := by
  refine ⟨?_, ?_, ?_, ?_, ?_⟩
  · intro ps e hps
    have hne : ¬ps.isEmpty := by simpa [List.isEmpty_iff] using hps
    have hma : maxAllowed e 30 = e * (1 + 30 / 100) := by
      unfold maxAllowed; ring
    have hpw : priceWithin (maxAllowed e 30) =
        (fun p => decide ((p.price.getD 0 : Rat) ≤ e * (1 + 30 / 100))) := by
      funext p; rw [priceWithin, hma]
    have hvl : (validPricesOf ps e 30).length =
        (ps.filter hasPriceData).countP
          (fun p => decide ((p.price.getD 0 : Rat) ≤ e * (1 + 30 / 100))) := by
      rw [validPricesOf, List.length_map, hpw, List.countP_eq_length_filter]
    have hil : (invalidEntriesOf ps e 30).length =
        (ps.filter hasPriceData).countP
          (fun p => !decide ((p.price.getD 0 : Rat) ≤ e * (1 + 30 / 100))) := by
      rw [invalidEntriesOf, List.length_map, hpw, List.countP_eq_length_filter]
    have hsum : (validPricesOf ps e 30).length + (invalidEntriesOf ps e 30).length =
        (ps.filter hasPriceData).length := by
      rw [validPricesOf, invalidEntriesOf, List.length_map, List.length_map, hpw]
      exact length_filter_add_length_filter_not _ _
    have hacc : accuracyOf ps e 30 =
        (if (ps.filter hasPriceData).length = 0 then 0
         else ((ps.filter hasPriceData).countP
             (fun p => decide ((p.price.getD 0 : Rat) ≤ e * (1 + 30 / 100))) : Rat)
           / ((ps.filter hasPriceData).length : Rat) * 100) := by
      rw [accuracyOf, hsum, hvl]
      rcases Nat.eq_zero_or_pos (ps.filter hasPriceData).length with hz | hpos
      · rw [hz]; simp
      · rw [if_pos hpos, if_neg (Nat.pos_iff_ne_zero.mp hpos)]
    refine ⟨?_, ?_, ?_, ?_⟩
    · rw [validate_price_accuracy_enhanced, if_neg hne]; exact congrArg some hvl
    · rw [validate_price_accuracy_enhanced, if_neg hne]; exact congrArg some hil
    · rw [validate_price_accuracy_enhanced, if_neg hne]; exact hacc
    · have haccfield : (validate_price_accuracy_enhanced ps e 30).accuracy =
          accuracyOf ps e 30 := by
        rw [validate_price_accuracy_enhanced, if_neg hne]
      rw [validate_price_accuracy_enhanced, if_neg hne]
      simp only [haccfield, hvl, ge_iff_le]
  · norm_num [validate_price_accuracy_enhanced, accuracyOf, validPricesOf,
      invalidEntriesOf, maxAllowed, priceWithin, hasPriceData, pricedList,
      List.filter_cons, List.filter_nil, List.map_cons, List.map_nil]
  · norm_num [validate_price_accuracy_enhanced, accuracyOf, validPricesOf,
      invalidEntriesOf, maxAllowed, priceWithin, hasPriceData, pricedList,
      List.filter_cons, List.filter_nil, List.map_cons, List.map_nil]
  · norm_num [validate_price_accuracy_enhanced, accuracyOf, validPricesOf,
      invalidEntriesOf, maxAllowed, priceWithin, hasPriceData, pricedList,
      List.filter_cons, List.filter_nil, List.map_cons, List.map_nil]
  · norm_num [validate_price_accuracy_enhanced, accuracyOf, validPricesOf,
      invalidEntriesOf, maxAllowed, priceWithin, hasPriceData, pricedList,
      List.filter_cons, List.filter_nil, List.map_cons, List.map_nil]

/-- C3 witness: the theorem applied to the concrete non-empty list
[400, 1000] at expected maximum 500. -/
theorem enhanced_price_accuracy_spec_witness :
    (validate_price_accuracy_enhanced (pricedList [400, 1000]) 500 30).passed =
      some (decide ((validate_price_accuracy_enhanced (pricedList [400, 1000]) 500 30).accuracy ≥ 40) ||
        decide (2 ≤ ((pricedList [400, 1000]).filter hasPriceData).countP
          (fun p => decide ((p.price.getD 0 : Rat) ≤ 500 * (1 + 30 / 100))))) :=
  ((enhanced_price_accuracy_spec.1 (pricedList [400, 1000]) 500
      (by simp [pricedList])).2.2.2)

/-- C4: after any sequence of navigations and popup-triggered window spawns
starting from one original window, a call to single-tab enforcement that hits
no driver error succeeds and leaves exactly the original (first) handle open
and focused. -/
theorem single_tab_invariant :
    ∀ (original : String) (ops : List WinOp),
      (enforce_single_tab_mode false (runWinOps original ops)).1 = true ∧
      (enforce_single_tab_mode false (runWinOps original ops)).2.handles = [original] ∧
      (enforce_single_tab_mode false (runWinOps original ops)).2.current = original := by
  intro original ops
  obtain ⟨hc, extra, he⟩ :=
    winops_foldl_shape ops { handles := [original], current := original }
  have he' : (runWinOps original ops).handles = original :: extra := by
    simpa [runWinOps] using he
  have hc' : (runWinOps original ops).current = original := by
    simpa [runWinOps] using hc
  cases extra with
  | nil =>
    refine ⟨?_, ?_, ?_⟩ <;> simp [enforce_single_tab_mode, he', hc']
  | cons b t =>
    refine ⟨?_, ?_, ?_⟩ <;> simp [enforce_single_tab_mode, he']

/-- C5: the options built by `get_visible_chrome_options` (and the minimal
retry options) pass the headless validator, and for every argument list the
validator errors exactly when some argument contains the headless flag
case-insensitively. -/
theorem headless_rejection :
    validate_no_headless_mode visible_chrome_arguments = Except.ok true ∧
    validate_no_headless_mode minimal_chrome_arguments = Except.ok true ∧
    (∀ args : List String,
      (∃ msg, validate_no_headless_mode args = Except.error msg) ↔
        ∃ arg ∈ args,
          containsSub "--headless".toList (lowerString arg).toList = true) ∧
    (∀ args : List String,
      validate_no_headless_mode args = Except.ok true ↔
        ∀ arg ∈ args,
          containsSub "--headless".toList (lowerString arg).toList = false) := by
  refine ⟨rfl, rfl, ?_, ?_⟩
  · intro args
    by_cases h : args.any headlessFlagIn
    · rw [validate_no_headless_mode, if_pos h]
      rw [List.any_eq_true] at h
      constructor
      · intro _; exact h
      · intro _; exact ⟨_, rfl⟩
    · rw [validate_no_headless_mode, if_neg h]
      rw [List.any_eq_true] at h
      constructor
      · rintro ⟨msg, hmsg⟩; exact absurd hmsg (by simp)
      · rintro ⟨a, ha, hca⟩; exact absurd ⟨a, ha, hca⟩ h
  · intro args
    by_cases h : args.any headlessFlagIn
    · rw [validate_no_headless_mode, if_pos h]
      rw [List.any_eq_true] at h
      obtain ⟨a, ha, hca⟩ := h
      constructor
      · intro hcontr; exact absurd hcontr (by simp)
      · intro hall
        have hfalse := hall a ha
        rw [headlessFlagIn] at hca
        rw [hfalse] at hca
        exact Bool.noConfusion hca
    · rw [validate_no_headless_mode, if_neg h]
      rw [List.any_eq_true] at h
      constructor
      · intro _ a ha
        by_contra hne
        rw [Bool.not_eq_false] at hne
        exact h ⟨a, ha, hne⟩
      · intro _; rfl

/-- C5 witness: the validator errors on a concrete argument list carrying an
upper-case headless flag, by the error characterization at that input. -/
theorem headless_rejection_witness :
    ∃ msg, validate_no_headless_mode ["--HEADLESS=new"] = Except.error msg :=
  (headless_rejection.2.2.1 ["--HEADLESS=new"]).mpr
    ⟨"--HEADLESS=new", by decide, by decide⟩

/-- C6: the combined workflow's Phase-4 validation passes exactly when at
least 3 of the 4 phase-success flags hold, where the flags are basic search
count ≥ 1, extracted products ≥ 1, interaction score ≥ 1, and priced
products ≥ 1 or total products ≥ 3; flags (T,T,F,T) pass and (T,F,F,T)
fail. -/
theorem workflow_phase4_threshold :
    (∀ b a i p : Bool,
      workflow_phase4_assert b a i p = true ↔ 3 ≤ [b, a, i, p].count true) ∧
    workflow_phase4_assert true true false true = true ∧
    workflow_phase4_assert true false false true = false ∧
    (∀ (basic_count : Nat) (products_data : List Product) (score : Nat),
      workflow_phase4 basic_count products_data score = true ↔
        3 ≤ [decide (1 ≤ basic_count), decide (1 ≤ products_data.length),
             decide (1 ≤ score),
             decide (1 ≤ products_data.countP hasPriceData ∨
                     3 ≤ products_data.length)].count true) := by
  have hbase : ∀ b a i p : Bool,
      workflow_phase4_assert b a i p = true ↔ 3 ≤ [b, a, i, p].count true := by
    decide
  refine ⟨hbase, by decide, by decide, ?_⟩
  intro bc pd sc
  rw [workflow_phase4]
  rw [show (decide (1 ≤ pd.countP hasPriceData ∨ 3 ≤ pd.length)) =
       (decide (1 ≤ pd.countP hasPriceData) || decide (3 ≤ pd.length)) from by
     by_cases hp : 1 ≤ pd.countP hasPriceData <;>
       by_cases hq : 3 ≤ pd.length <;> simp [hp, hq]]
  exact hbase _ _ _ _

/-- C7: adding a screenshot whose path does not currently exist on disk
leaves the screenshot list unchanged, and every entry of the HTML report's
gallery has a file that exists on the render-time filesystem, even when that
filesystem differs from the one seen at record time. -/
theorem screenshot_integrity :
    (∀ (fs : String → Bool) (r : Reporter) (path description ts : String),
      fs path = false →
      Reporter.add_screenshot fs r path description ts = r) ∧
    (∀ (fs : String → Bool) (r : Reporter) (s : ScreenshotRecord),
      s ∈ Reporter.html_gallery fs r → fs s.path = true) := by
  constructor
  · intro fs r path description ts h
    simp [Reporter.add_screenshot, h]
  · intro fs r s hs
    rw [Reporter.html_gallery] at hs
    exact (List.mem_filter.mp hs).2

/-- C7 witness: a missing file is ignored on a fresh reporter, and a record
kept in the gallery under a concrete render-time filesystem has an existing
path there. -/
theorem screenshot_integrity_witness :
    Reporter.add_screenshot (fun _ => false) Reporter.init
      "screenshots/missing.png" "gone" "t0" = Reporter.init ∧
    (fun q => q == "screenshots/kept.png")
      (ScreenshotRecord.mk "screenshots/kept.png" "d" "t1").path = true :=
  ⟨screenshot_integrity.1 (fun _ => false) Reporter.init
      "screenshots/missing.png" "gone" "t0" rfl,
   screenshot_integrity.2 (fun q => q == "screenshots/kept.png")
      { Reporter.init with
          screenshots := [ScreenshotRecord.mk "screenshots/kept.png" "d" "t1"] }
      (ScreenshotRecord.mk "screenshots/kept.png" "d" "t1")
      (by simp [Reporter.html_gallery, Reporter.init])⟩

/-- C8: an unrecognized first flag exits 1 with nothing dispatched; a failing
environment check exits 1 before any dispatch for every argument list; a
recognized flag with a passing check dispatches exactly its suite and
propagates the subprocess's return code; no arguments enters interactive
mode, whose normal exit returns 0. -/
theorem cli_exit_codes :
    (∀ (pytest_exit : String → Int) (idisp rest : List String) (a : String),
      lowerString a ≠ "--basic" → lowerString a ≠ "--advanced" →
      lowerString a ≠ "--both" → lowerString a ≠ "--all" →
      run_tests_main true (a :: rest) pytest_exit idisp =
        { exit_code := 1, dispatched := [] }) ∧
    (∀ (pytest_exit : String → Int) (idisp args : List String),
      run_tests_main false args pytest_exit idisp =
        { exit_code := 1, dispatched := [] }) ∧
    (∀ (pytest_exit : String → Int) (idisp rest : List String) (a : String),
      lowerString a = "--basic" →
      run_tests_main true (a :: rest) pytest_exit idisp =
        { exit_code := pytest_exit basicTarget, dispatched := [basicTarget] }) ∧
    (∀ (pytest_exit : String → Int) (idisp rest : List String) (a : String),
      lowerString a = "--advanced" →
      run_tests_main true (a :: rest) pytest_exit idisp =
        { exit_code := pytest_exit advancedTarget,
          dispatched := [advancedTarget] }) ∧
    (∀ (pytest_exit : String → Int) (idisp rest : List String) (a : String),
      lowerString a = "--both" ∨ lowerString a = "--all" →
      run_tests_main true (a :: rest) pytest_exit idisp =
        { exit_code := pytest_exit bothTarget, dispatched := [bothTarget] }) ∧
    (∀ (pytest_exit : String → Int) (idisp : List String),
      run_tests_main true [] pytest_exit idisp =
        { exit_code := 0, dispatched := idisp }) := by
  refine ⟨?_, ?_, ?_, ?_, ?_, ?_⟩
  · intro pytest_exit idisp rest a h1 h2 h3 h4
    simp [run_tests_main, h1, h2, h3, h4]
  · intro pytest_exit idisp args
    simp [run_tests_main]
  · intro pytest_exit idisp rest a h
    simp [run_tests_main, h]
  · intro pytest_exit idisp rest a h
    have hne : lowerString a ≠ "--basic" := by rw [h]; decide
    simp [run_tests_main, h, hne]
  · intro pytest_exit idisp rest a h
    rcases h with h | h
    · have h1 : lowerString a ≠ "--basic" := by rw [h]; decide
      have h2 : lowerString a ≠ "--advanced" := by rw [h]; decide
      simp [run_tests_main, h, h1, h2]
    · have h1 : lowerString a ≠ "--basic" := by rw [h]; decide
      have h2 : lowerString a ≠ "--advanced" := by rw [h]; decide
      have h3 : lowerString a ≠ "--both" := by rw [h]; decide
      simp [run_tests_main, h, h1, h2, h3]
  · intro pytest_exit idisp
    simp [run_tests_main]

/-- C8 witness: the theorem applied at the concrete flags "--weird",
"--basic" (also under a failing environment), "--advanced", "--ALL" and the
empty argument list, with a subprocess exit function returning 7. -/
theorem cli_exit_codes_witness :
    run_tests_main true ["--weird"] (fun _ => 7) [] =
      { exit_code := 1, dispatched := [] } ∧
    run_tests_main false ["--basic"] (fun _ => 7) [] =
      { exit_code := 1, dispatched := [] } ∧
    run_tests_main true ["--basic"] (fun _ => 7) [] =
      { exit_code := 7, dispatched := [basicTarget] } ∧
    run_tests_main true ["--advanced"] (fun _ => 7) [] =
      { exit_code := 7, dispatched := [advancedTarget] } ∧
    run_tests_main true ["--ALL"] (fun _ => 7) [] =
      { exit_code := 7, dispatched := [bothTarget] } ∧
    run_tests_main true [] (fun _ => 7) ["chosen"] =
      { exit_code := 0, dispatched := ["chosen"] } := by
  refine ⟨?_, ?_, ?_, ?_, ?_, ?_⟩
  · exact cli_exit_codes.1 (fun _ => 7) [] [] "--weird"
      (by decide) (by decide) (by decide) (by decide)
  · exact cli_exit_codes.2.1 (fun _ => 7) [] ["--basic"]
  · exact cli_exit_codes.2.2.1 (fun _ => 7) [] [] "--basic" (by decide)
  · exact cli_exit_codes.2.2.2.1 (fun _ => 7) [] [] "--advanced" (by decide)
  · exact cli_exit_codes.2.2.2.2.1 (fun _ => 7) [] [] "--ALL"
      (Or.inr (by decide))
  · exact cli_exit_codes.2.2.2.2.2 (fun _ => 7) ["chosen"]

/-- C9 counterexample: the raw selector "name=q[a]" starts with "name=" but
auto-detection maps it to a generic CSS locator, not a name-attribute
locator, because the bracketed-attribute check runs first. -/
theorem selector_name_detect_cex :
    strStartsWith "name=q[a]" "name=" = true ∧
    auto_detect_selector_type "name=q[a]" = (SelBy.cssSelector, "name=q[a]") ∧
    (auto_detect_selector_type "name=q[a]").1 ≠ SelBy.name := by
  refine ⟨by decide, by decide, by decide⟩

/-- C9 (amended): auto-detection maps a leading "#" to an ID locator with
the "#" stripped, a leading "." to a class-name locator stripped, a leading
"//" to an XPath locator, a string containing both "[" and "]" to a CSS
locator, a "name=" prefix to a name-attribute locator with the rest of the
string only when no bracketed attribute syntax is present, and anything else
to a CSS locator. -/
theorem selector_auto_detection :
    ∀ s : String,
      (strStartsWith s "#" = true →
        auto_detect_selector_type s = (SelBy.id, s.drop 1)) ∧
      (strStartsWith s "#" = false → strStartsWith s "." = true →
        auto_detect_selector_type s = (SelBy.className, s.drop 1)) ∧
      (strStartsWith s "#" = false → strStartsWith s "." = false →
        strStartsWith s "//" = true →
        auto_detect_selector_type s = (SelBy.xpath, s)) ∧
      (strStartsWith s "#" = false → strStartsWith s "." = false →
        strStartsWith s "//" = false →
        (strContainsChar s '[' && strContainsChar s ']') = true →
        auto_detect_selector_type s = (SelBy.cssSelector, s)) ∧
      (strStartsWith s "#" = false → strStartsWith s "." = false →
        strStartsWith s "//" = false →
        (strContainsChar s '[' && strContainsChar s ']') = false →
        strStartsWith s "name=" = true →
        auto_detect_selector_type s = (SelBy.name, s.drop 5)) ∧
      (strStartsWith s "#" = false → strStartsWith s "." = false →
        strStartsWith s "//" = false →
        (strContainsChar s '[' && strContainsChar s ']') = false →
        strStartsWith s "name=" = false →
        auto_detect_selector_type s = (SelBy.cssSelector, s)) := by
  intro s
  refine ⟨?_, ?_, ?_, ?_, ?_, ?_⟩
  · intro h1; simp [auto_detect_selector_type, h1]
  · intro h1 h2; simp [auto_detect_selector_type, h1, h2]
  · intro h1 h2 h3; simp [auto_detect_selector_type, h1, h2, h3]
  · intro h1 h2 h3 h4; simp [auto_detect_selector_type, h1, h2, h3, h4]
  · intro h1 h2 h3 h4 h5; simp [auto_detect_selector_type, h1, h2, h3, h4, h5]
  · intro h1 h2 h3 h4 h5; simp [auto_detect_selector_type, h1, h2, h3, h4, h5]

/-- C9 witness: the amended mapping at one concrete string per branch. -/
theorem selector_auto_detection_witness :
    auto_detect_selector_type "#main" = (SelBy.id, "main") ∧
    auto_detect_selector_type ".card" = (SelBy.className, "card") ∧
    auto_detect_selector_type "//div" = (SelBy.xpath, "//div") ∧
    auto_detect_selector_type "input[type]" =
      (SelBy.cssSelector, "input[type]") ∧
    auto_detect_selector_type "name=email" = (SelBy.name, "email") ∧
    auto_detect_selector_type "h2 a" = (SelBy.cssSelector, "h2 a") :=
  ⟨(selector_auto_detection "#main").1 (by decide),
   (selector_auto_detection ".card").2.1 (by decide) (by decide),
   (selector_auto_detection "//div").2.2.1 (by decide) (by decide) (by decide),
   (selector_auto_detection "input[type]").2.2.2.1 (by decide) (by decide)
     (by decide) (by decide),
   (selector_auto_detection "name=email").2.2.2.2.1 (by decide) (by decide)
     (by decide) (by decide) (by decide),
   (selector_auto_detection "h2 a").2.2.2.2.2 (by decide) (by decide)
     (by decide) (by decide) (by decide)⟩

/-- C10: on the empty product list the strict validator returns only an
accuracy of 0 and a details message with every other field (including
`passed`) absent; on every non-empty list it returns a `passed` boolean that
is true exactly when accuracy ≥ 70; the enhanced variant instead returns an
explicit `passed = false` for the same empty input. -/
theorem validator_empty_shape :
    (∀ e t : Rat, validate_price_accuracy [] e t =
      { accuracy := 0, details := some "No products to validate",
        valid_count := none, invalid_count := none, total_products := none,
        products_with_prices := none, invalid_products := none,
        passed := none }) ∧
    (∀ (ps : List Product) (e t : Rat), ps ≠ [] →
      ∃ b : Bool, (validate_price_accuracy ps e t).passed = some b ∧
        (b = true ↔ (validate_price_accuracy ps e t).accuracy ≥ 70)) ∧
    (∀ e t : Rat, (validate_price_accuracy_enhanced [] e t).passed =
      some false) := by
  refine ⟨?_, ?_, ?_⟩
  · intro e t; rfl
  · intro ps e t hps
    have hne : ¬ps.isEmpty := by simpa [List.isEmpty_iff] using hps
    refine ⟨decide (accuracyOf ps e t ≥ 70), ?_, ?_⟩
    · rw [validate_price_accuracy, if_neg hne]
    · rw [validate_price_accuracy, if_neg hne]
      exact decide_eq_true_iff
  · intro e t; rfl

/-- C10 witness: the non-empty branch applied to the concrete one-product
list [400] at expected maximum 500 and tolerance 25. -/
theorem validator_empty_shape_witness :
    ∃ b : Bool,
      (validate_price_accuracy (pricedList [400]) 500 25).passed = some b ∧
      (b = true ↔ (validate_price_accuracy (pricedList [400]) 500 25).accuracy ≥ 70) :=
  validator_empty_shape.2.1 (pricedList [400]) 500 25 (by simp [pricedList])

end AmazonQA
